import Mathlib

/-!
Verification development for the Voyage trip-planning orchestrator
(`src/backend/server.py`, endpoint `plan_trip_from_prompt`, plus the
research cache helpers `get_cached_research` / `cache_research`).

Shallow embedding conventions:
* Python `float` / money amounts are embedded as `ℚ` (exact arithmetic);
  the literal `1.2` becomes `6/5`, `1.3` becomes `13/10`, `2.5` becomes `5/2`.
* Python integers are `ℤ` where the code can in principle hold 0 or negative
  values (`num_days`, `num_people`), `ℕ` for the parsed daily minimum.
* `dict.get(key)` on the previous-extraction dict is embedded as
  `Option`-valued fields; Python truthiness of the fetched value is made
  explicit (`some s` with `s ≠ ""` for strings, `some n` with `n ≠ 0` for
  numbers).
* The two regex scans of the research text (server.py:2396, 2402-2403) are
  embedded by their result: a `BudgetInfo` record carrying the optional
  `EXTRACTED MINIMUM` capture and the lists of rupee- and dollar-marked
  amounts found in the text, in text order.
* Wall-clock timestamps (`datetime.now()`) are `ℚ` seconds passed
  explicitly; `age = now - insertion time`.
* A Python exception is an `Except Unit` error; external collaborators
  (the two transport estimators of `agent_logic`, which is not part of the
  sources) are passed in as `Except Unit ℚ` outcomes.
-/

namespace Voyage

/-- Budget tier labels assigned at server.py:2474-2482. -/
inductive Tier where
  | budgetFriendly
  | moderate
  | luxury
deriving DecidableEq, Repr

/-- The `TripDetails` slot record accumulated by the orchestrator
(fields as used by `plan_trip_from_prompt`; the pydantic model lives in
`schemas.py`).  `start_date` and `interests` use `""` for Python
`None`/empty (both are only ever tested for truthiness). -/
structure TripSlots where
  origin_city : String
  destination : String
  num_days : Int
  num_people : Int
  budget : ℚ
  interests : String
  start_date : String
deriving DecidableEq, Repr

/-- The `request.previous_extraction` dict: `get` returns `none` for an
absent key. `original_destination` is present only when a previous turn
stored it (server.py:2648). -/
structure PrevExtraction where
  origin_city : Option String
  destination : Option String
  num_days : Option Int
  num_people : Option Int
  budget : Option ℚ
  interests : Option String
  start_date : Option String
  original_destination : Option String
deriving DecidableEq, Repr

/-- Python truthiness of `dict.get(k)` for a string-valued key:
present and non-empty. -/
def strTruthy : Option String → Bool
  | some s => s ≠ ""
  | none => false

/-- Python truthiness of `dict.get(k)` for an integer-valued key:
present and non-zero. -/
def intTruthy : Option Int → Bool
  | some n => n ≠ 0
  | none => false

/-- Python truthiness of `dict.get(k)` for a float-valued key:
present and non-zero. -/
def ratTruthy : Option ℚ → Bool
  | some q => q ≠ 0
  | none => false

/-- Python `str.lower()` as used on the slot strings (ASCII case folding,
character by character). -/
def pyLower (s : String) : String := String.mk (s.data.map Char.toLower)

/-- The sentinel list used by the merge steps
(server.py:2195 and 2201): note it does NOT contain `"anywhere"`. -/
def mergeSentinels : List String := ["not specified", "unknown", "n/a", ""]

/-- The sentinel list used by the completeness check
(server.py:2270 and 2276): it additionally contains `"anywhere"`. -/
def validationSentinels : List String :=
  ["not specified", "unknown", "n/a", "", "anywhere"]

/-- `s.lower() in ["not specified", "unknown", "n/a", ""]` (merge). -/
def isUnknownStr4 (s : String) : Bool := mergeSentinels.contains (pyLower s)

/-- `not s or s.lower() in [..., "anywhere"]` (completeness check;
`not s` is subsumed because `""` is in the list). -/
def isUnknownStr5 (s : String) : Bool := validationSentinels.contains (pyLower s)

/-- Merged `origin_city` (server.py:2195-2199): the previous value is kept
only when the fresh value is a merge sentinel and the previous one is
truthy; otherwise the fresh value stands. -/
def mergedOrigin (prev : PrevExtraction) (fresh : TripSlots) : String :=
  if isUnknownStr4 fresh.origin_city && strTruthy prev.origin_city then
    prev.origin_city.getD fresh.origin_city
  else fresh.origin_city

/-- Whether the budget-increase event fires (server.py:2224-2237): the fresh
budget is truthy and positive, the previous budget is truthy, and the fresh
budget strictly exceeds it. -/
def budgetIncreaseEvent (prev : PrevExtraction) (fresh : TripSlots) : Bool :=
  decide (0 < fresh.budget) && ratTruthy prev.budget
    && decide (prev.budget.getD 0 < fresh.budget)

/-- Merged `destination`: the ordinary keep/override step at
server.py:2201-2205, then possibly overwritten by the stored
`original_destination` when the budget-increase event fires and
`original_destination` is truthy (server.py:2233-2237). -/
def mergedDestination (prev : PrevExtraction) (fresh : TripSlots) : String :=
  let d1 :=
    if isUnknownStr4 fresh.destination && strTruthy prev.destination then
      prev.destination.getD fresh.destination
    else fresh.destination
  if budgetIncreaseEvent prev fresh && strTruthy prev.original_destination then
    prev.original_destination.getD d1
  else d1

/-- Merged `num_days` (server.py:2207-2211): `not d or d <= 0` is `d ≤ 0`
for an integer. -/
def mergedNumDays (prev : PrevExtraction) (fresh : TripSlots) : Int :=
  if fresh.num_days ≤ 0 && intTruthy prev.num_days then
    prev.num_days.getD fresh.num_days
  else fresh.num_days

/-- Merged `num_people` (server.py:2213-2217). -/
def mergedNumPeople (prev : PrevExtraction) (fresh : TripSlots) : Int :=
  if fresh.num_people ≤ 0 && intTruthy prev.num_people then
    prev.num_people.getD fresh.num_people
  else fresh.num_people

/-- Merged `budget` (server.py:2219-2243): the previous budget is adopted
only when the fresh one is `≤ 0` and the previous is truthy; in every other
branch (including the budget-increase event) the fresh value stands. -/
def mergedBudget (prev : PrevExtraction) (fresh : TripSlots) : ℚ :=
  if decide (fresh.budget ≤ 0) && ratTruthy prev.budget then
    prev.budget.getD fresh.budget
  else fresh.budget

/-- Merged `interests` (server.py:2245-2249): plain truthiness test. -/
def mergedInterests (prev : PrevExtraction) (fresh : TripSlots) : String :=
  if fresh.interests = "" && strTruthy prev.interests then
    prev.interests.getD fresh.interests
  else fresh.interests

/-- Merged `start_date` (server.py:2251-2255): plain truthiness test. -/
def mergedStartDate (prev : PrevExtraction) (fresh : TripSlots) : String :=
  if fresh.start_date = "" && strTruthy prev.start_date then
    prev.start_date.getD fresh.start_date
  else fresh.start_date

/-- The whole slot merge (server.py:2194-2257).  The source mutates
`trip_details` field by field; the only cross-field write is the
budget-increase overwrite of `destination`, folded into
`mergedDestination`, so the per-field composition is the sequential
semantics. -/
def mergeSlots (prev : PrevExtraction) (fresh : TripSlots) : TripSlots :=
  { origin_city := mergedOrigin prev fresh
    destination := mergedDestination prev fresh
    num_days := mergedNumDays prev fresh
    num_people := mergedNumPeople prev fresh
    budget := mergedBudget prev fresh
    interests := mergedInterests prev fresh
    start_date := mergedStartDate prev fresh }

/-- What `trip_details.model_dump()` contributes as the next turn's
`previous_extraction` on the COLLECTING path (server.py:2331): the
`TripDetails` model has no `original_destination` attribute, so that key is
absent in the dumped dict. -/
def slotsToPrevExtraction (t : TripSlots) : PrevExtraction :=
  { origin_city := some t.origin_city
    destination := some t.destination
    num_days := some t.num_days
    num_people := some t.num_people
    budget := some t.budget
    interests := some t.interests
    start_date := some t.start_date
    original_destination := none }

/-- The missing-required-fields list built at server.py:2262-2297, in
source order. -/
def missingFields (t : TripSlots) : List String :=
  (if isUnknownStr5 t.origin_city then ["origin city"] else []) ++
  (if isUnknownStr5 t.destination then ["destination"] else []) ++
  (if t.num_days ≤ 0 then ["duration"] else []) ++
  (if t.budget ≤ 0 then ["budget"] else []) ++
  (if t.start_date = "" then ["start date"] else [])

/-!  Cost-signal parsing (server.py:2388-2417). -/

/-- The cost signals pre-extracted from the `minimum_budget` research text:
`nonempty` is the Python truthiness of the text itself; `extractedMin` is
the capture of `EXTRACTED MINIMUM: ₹(\d+)` when that regex matches;
`rupeeAmounts` / `dollarAmounts` are the `findall` results of the
rupee-mark and dollar-mark scans (server.py:2396, 2402-2403), in text
order, before any plausibility filtering. -/
structure BudgetInfo where
  nonempty : Bool
  extractedMin : Option Nat
  rupeeAmounts : List Nat
  dollarAmounts : List Nat
deriving DecidableEq, Repr

/-- Python `min` over a non-empty list (left fold); 0 on the empty list,
which the code never reaches because it guards with `if amounts:`. -/
def listMin : List Nat → Nat
  | [] => 0
  | x :: xs => xs.foldl Nat.min x

/-- The hardcoded default daily minimum (server.py:2389). -/
def defaultMinDaily : Nat := 2500

/-- The daily-minimum extraction chain of server.py:2388-2417:
labeled marker first; else the rupee scan — note the `elif`: the dollar
branch runs only when the rupee scan found NO amounts at all, even
implausible ones; else the dollar scan filtered to 10..200 and converted
at 83 ₹/$; else the default 2500 (which also stands when a scan found
amounts but none survived its plausibility filter). -/
def parseMinDailyBudget (b : BudgetInfo) : Nat :=
  if b.nonempty then
    match b.extractedMin with
    | some n => n
    | none =>
      if b.rupeeAmounts ≠ [] then
        let amounts := b.rupeeAmounts.filter (fun m => 1000 ≤ m && m ≤ 15000)
        if amounts ≠ [] then listMin amounts else defaultMinDaily
      else if b.dollarAmounts ≠ [] then
        let amounts :=
          (b.dollarAmounts.filter (fun m => 10 ≤ m && m ≤ 200)).map (· * 83)
        if amounts ≠ [] then listMin amounts else defaultMinDaily
      else defaultMinDaily
  else defaultMinDaily

/-- The fallback chain as the spec words it (§4.4 / claim C5), for
comparison with `parseMinDailyBudget`: step 3 (dollar conversion with the
same 1000–15000 plausibility filter on the converted figure) is reached
whenever step 2 produced no plausible rupee amount — not only when the
rupee scan found nothing at all. -/
def specCostSignalParse (b : BudgetInfo) : Nat :=
  match b.extractedMin with
  | some n => n
  | none =>
    let rupeePlausible := b.rupeeAmounts.filter (fun m => 1000 ≤ m && m ≤ 15000)
    if rupeePlausible ≠ [] then listMin rupeePlausible
    else
      let dollarPlausible :=
        (b.dollarAmounts.map (· * 83)).filter (fun m => 1000 ≤ m && m ≤ 15000)
      if dollarPlausible ≠ [] then listMin dollarPlausible
      else defaultMinDaily

/-!  Research cache (server.py:299-303, 380-395). -/

/-- The four-blob research bundle assembled at server.py:2358-2363; the
`minimum_budget` text is carried in its pre-parsed `BudgetInfo` form. -/
structure ResearchData where
  minimum_budget : BudgetInfo
  travel_advisory : String
  weather : String
  document_info : String
deriving DecidableEq, Repr

/-- The pair of module-level dicts `research_cache` and
`research_cache_timestamps` (server.py:301-302); timestamps are seconds. -/
structure ResearchCache where
  entries : String → Option ResearchData
  timestamps : String → Option ℚ

/-- `RESEARCH_CACHE_DURATION_SECONDS` (server.py:303). -/
def cacheDurationSeconds : ℚ := 3600

/-- The initial empty cache state (both dicts empty). -/
def emptyCache : ResearchCache :=
  { entries := fun _ => none, timestamps := fun _ => none }

/-- `cache_research` (server.py:391-395): stores under the destination
string exactly as given, stamping the insertion time. -/
def cache_research (c : ResearchCache) (destination : String)
    (data : ResearchData) (now : ℚ) : ResearchCache :=
  { entries := fun k => if k = destination then some data else c.entries k
    timestamps := fun k => if k = destination then some now else c.timestamps k }

/-- `get_cached_research` (server.py:380-389): exact-string key lookup;
returns the entry only when a timestamp exists and the age is strictly
below the expiry duration. -/
def get_cached_research (c : ResearchCache) (destination : String)
    (now : ℚ) : Option ResearchData :=
  match c.entries destination with
  | none => none
  | some data =>
    match c.timestamps destination with
    | none => none
    | some ts => if now - ts < cacheDurationSeconds then some data else none

/-- The research step (server.py:2339-2367): on a cache hit the cached
bundle is used with no external calls; on a miss the four research calls
are fanned out (`freshResearch` stands for their combined result) and the
cache is repopulated.  The `ℕ` component counts external research calls. -/
def step2Research (c : ResearchCache) (now : ℚ) (destination : String)
    (freshResearch : ResearchData) : ResearchData × ResearchCache × ℕ :=
  match get_cached_research c destination now with
  | some data => (data, c, 0)
  | none => (freshResearch, cache_research c destination freshResearch now, 4)

/-!  Feasibility engine (server.py:2440-2487). -/

/-- The quantities computed by the pure feasibility block: required total
(server.py:2446), sufficiency verdict (2449), shortfall (2450), the user's
per-person-per-day figure (2442), the surplus printed in the sufficient
branch (2466), and the tier (2474-2482). -/
structure FeasibilityResult where
  required_total : ℚ
  is_sufficient : Bool
  shortfall : ℚ
  surplus : ℚ
  user_daily_per_person : ℚ
  tier : Tier
deriving DecidableEq, Repr

/-- The feasibility computation on the normal (no-exception) path:
`required_total = dailyMin * num_days * num_people * 1.2 + transport`
(1.2 as `6/5`), `is_sufficient = budget ≥ required_total`,
`shortfall = required_total - budget` when insufficient else 0,
`surplus = budget - required_total` when sufficient else 0, and the tier
thresholds `dailyMin * 1.3` and `dailyMin * 2.5` with strict `<`
(so the lower bound of each upper band is inclusive). -/
def computeFeasibility (dailyMin : ℕ) (numDays numPeople : ℤ)
    (budget transport : ℚ) : FeasibilityResult :=
  let userDaily : ℚ := budget / (numPeople : ℚ) / (numDays : ℚ)
  let required : ℚ := (dailyMin : ℚ) * (numDays : ℚ) * (numPeople : ℚ) * (6/5) + transport
  let suff : Bool := decide (budget ≥ required)
  { required_total := required
    is_sufficient := suff
    shortfall := if suff then 0 else required - budget
    surplus := if suff then budget - required else 0
    user_daily_per_person := userDaily
    tier :=
      if userDaily < (dailyMin : ℚ) * (13/10) then Tier.budgetFriendly
      else if userDaily < (dailyMin : ℚ) * (5/2) then Tier.moderate
      else Tier.luxury }

/-- The feasibility computation with its Python failure mode made
explicit: `budget / num_people / num_days` (server.py:2442) raises
`ZeroDivisionError` when either divisor is zero; any such exception is an
`Except` error consumed by the surrounding handler. -/
def computeFeasibilityE (dailyMin : ℕ) (numDays numPeople : ℤ)
    (budget transport : ℚ) : Except Unit FeasibilityResult :=
  if numPeople = 0 ∨ numDays = 0 then Except.error ()
  else Except.ok (computeFeasibility dailyMin numDays numPeople budget transport)

/-!  Transport-cost adapter and the guarded feasibility step
(server.py:2388-2495).  The estimators themselves live in
`agent_logic.py`, outside these sources, so each run is a parameter
`Except Unit ℚ`: `ok v` for a returned amount, `error` for a raised
exception. -/

/-- The try/except at server.py:2422-2438: the primary estimate is used
when it succeeds; on any primary failure the category fallback is called —
with no inner handler, so a fallback failure propagates upward. -/
def estimateTransportAdapter (primary fallback : Except Unit ℚ) :
    Except Unit ℚ :=
  match primary with
  | Except.ok v => Except.ok v
  | Except.error _ => fallback

/-- The verdict fields that survive the feasibility step and drive the
rest of the request. -/
structure Verdict where
  is_sufficient : Bool
  shortfall : ℚ
  tier : Tier
deriving DecidableEq, Repr

/-- The defaults installed by the `except` handler at server.py:2490-2495:
sufficient, zero shortfall, moderate tier. -/
def defaultVerdict : Verdict :=
  { is_sufficient := true, shortfall := 0, tier := Tier.moderate }

/-- STEP 3 of the orchestrator (server.py:2388-2495): one enclosing `try`
around parsing, transport estimation and the feasibility arithmetic; any
exception anywhere inside yields `defaultVerdict`.  The `ℕ` component
counts transport-estimator calls (1, or 2 when the fallback ran). -/
def step3Verdict (b : BudgetInfo) (primary fallback : Except Unit ℚ)
    (t : TripSlots) : Verdict × ℕ :=
  let tcalls : ℕ := match primary with | Except.ok _ => 1 | Except.error _ => 2
  let outcome : Except Unit FeasibilityResult := do
    let transport ← estimateTransportAdapter primary fallback
    computeFeasibilityE (parseMinDailyBudget b) t.num_days t.num_people
      t.budget transport
  match outcome with
  | Except.ok r =>
    ({ is_sufficient := r.is_sufficient, shortfall := r.shortfall,
       tier := r.tier }, tcalls)
  | Except.error _ => (defaultVerdict, tcalls)

/-- The planning-prompt selection at server.py:2525-2536. -/
inductive PromptKind where
  | standard
  | replanning
deriving DecidableEq, Repr

/-- `if is_budget_sufficient: standard prompt else replanning prompt`. -/
def choosePrompt (v : Verdict) : PromptKind :=
  if v.is_sufficient then PromptKind.standard else PromptKind.replanning

/-!  The post-merge pipeline (server.py:2262-2536). -/

/-- The response shape relevant to the claims: a COLLECTING
("Need more information") response enumerating the missing fields, or a
planned response carrying the verdict. -/
inductive OrchestratorResponse where
  | collecting (missing : List String)
  | planned (v : Verdict)
deriving DecidableEq, Repr

/-- The pipeline after the slot merge: completeness check first — a
non-empty missing list returns at server.py:2327 before the research
phase, so no research or transport call happens; otherwise research
(cached or fanned out), then the guarded feasibility step.  The `ℕ`
component counts all external cost lookups made (research + transport). -/
def pipelineAfterMerge (t : TripSlots) (cache : ResearchCache) (now : ℚ)
    (freshResearch : ResearchData) (primary fallback : Except Unit ℚ) :
    OrchestratorResponse × ℕ :=
  let missing := missingFields t
  if missing = [] then
    let (research, _cache2, rcalls) := step2Research cache now t.destination freshResearch
    let (v, tcalls) := step3Verdict research.minimum_budget primary fallback t
    (OrchestratorResponse.planned v, rcalls + tcalls)
  else (OrchestratorResponse.collecting missing, 0)

/-!  Concrete fixtures used by witnesses and counterexamples. -/

/-- A research bundle whose budget text is empty: every scan is empty, so
the parser lands on the default. -/
def sampleResearch : ResearchData :=
  { minimum_budget :=
      { nonempty := false, extractedMin := none, rupeeAmounts := [],
        dollarAmounts := [] }
    travel_advisory := "", weather := "", document_info := "" }

/-- A fully known previous slot set (origin "Delhi"). -/
def prevKnownOrigin : PrevExtraction :=
  { origin_city := some "Delhi", destination := some "Goa",
    num_days := some 5, num_people := some 2, budget := some 40000,
    interests := none, start_date := some "2025-12-20",
    original_destination := none }

/-- A fresh extraction whose origin is the sentinel string "Anywhere"
(unknown per the completeness check), everything else restated. -/
def freshAnywhereOrigin : TripSlots :=
  { origin_city := "Anywhere", destination := "Goa", num_days := 5,
    num_people := 2, budget := 40000, interests := "",
    start_date := "2025-12-20" }

/-- Prior slots after an INSUFFICIENT verdict: destination was switched to
"Ladakh" and the first choice "Goa" is stored in `original_destination`. -/
def prevBudgetIncrease : PrevExtraction :=
  { origin_city := some "Delhi", destination := some "Ladakh",
    num_days := some 5, num_people := some 2, budget := some 40000,
    interests := none, start_date := some "2025-12-20",
    original_destination := some "Goa" }

/-- A new turn stating only `budget = 60000` (every other extracted field
comes back as its unknown marker or default). -/
def freshOnlyBudget : TripSlots :=
  { origin_city := "Not specified", destination := "Not specified",
    num_days := 0, num_people := 1, budget := 60000, interests := "",
    start_date := "" }

/-- Research text whose rupee amounts (500 and 20000) all fall outside
the plausible range 1000–15000 but which mentions a plausible dollar
amount ($50). -/
def infoRupeeImplausible : BudgetInfo :=
  { nonempty := true, extractedMin := none, rupeeAmounts := [500, 20000],
    dollarAmounts := [50] }

/-- Research text with no rupee amounts at all and one dollar amount. -/
def infoDollarOnly : BudgetInfo :=
  { nonempty := true, extractedMin := none, rupeeAmounts := [],
    dollarAmounts := [50] }

/-- A complete slot set with a small budget (10000 for 2 people, 5 days),
used to exercise the double-transport-failure path. -/
def slotsCompleteSmallBudget : TripSlots :=
  { origin_city := "Delhi", destination := "Goa", num_days := 5,
    num_people := 2, budget := 10000, interests := "",
    start_date := "2025-12-20" }

/-- A slot set in which only `start_date` is unknown. -/
def slotsMissingOnlyStart : TripSlots :=
  { origin_city := "Delhi", destination := "Goa", num_days := 5,
    num_people := 2, budget := 50000, interests := "", start_date := "" }

end Voyage

namespace Voyage

/-- C1: for every complete slot set and researched inputs, the feasibility
computation (server.py:2442-2467) yields
`required_total = daily_minimum * num_days * num_people * 1.2 + transport`,
declares the budget sufficient exactly when `budget ≥ required_total`, and
reports `shortfall = required_total - budget` when insufficient and `0`
otherwise; for daily minimum 3000, 5 days, 2 people, transport 8000 the
required total is 44000, with budget 40000 insufficient (shortfall 4000),
budget 44000 sufficient (surplus 0), and budget 50000 sufficient
(surplus 6000). -/
theorem feasibility_formula_and_monotone_instances :
    (∀ (dailyMin : ℕ) (numDays numPeople : ℤ) (budget transport : ℚ),
      0 < numDays → 0 < numPeople → 0 < budget →
      (computeFeasibility dailyMin numDays numPeople budget transport).required_total
          = (dailyMin : ℚ) * (numDays : ℚ) * (numPeople : ℚ) * (6/5) + transport
        ∧ ((computeFeasibility dailyMin numDays numPeople budget transport).is_sufficient = true
            ↔ budget ≥ (dailyMin : ℚ) * (numDays : ℚ) * (numPeople : ℚ) * (6/5) + transport)
        ∧ (computeFeasibility dailyMin numDays numPeople budget transport).shortfall
          = (if budget ≥ (dailyMin : ℚ) * (numDays : ℚ) * (numPeople : ℚ) * (6/5) + transport
             then 0
             else (dailyMin : ℚ) * (numDays : ℚ) * (numPeople : ℚ) * (6/5) + transport - budget))
    ∧ (computeFeasibility 3000 5 2 40000 8000).required_total = 44000
    ∧ (computeFeasibility 3000 5 2 40000 8000).is_sufficient = false
    ∧ (computeFeasibility 3000 5 2 40000 8000).shortfall = 4000
    ∧ (computeFeasibility 3000 5 2 44000 8000).is_sufficient = true
    ∧ (computeFeasibility 3000 5 2 44000 8000).surplus = 0
    ∧ (computeFeasibility 3000 5 2 50000 8000).is_sufficient = true
    ∧ (computeFeasibility 3000 5 2 50000 8000).surplus = 6000 := by
  refine ⟨?_, ?_, ?_, ?_, ?_, ?_, ?_, ?_⟩
  · intro dailyMin numDays numPeople budget transport _ _ _
    refine ⟨rfl, ?_, ?_⟩
    · simp [computeFeasibility]
    · simp only [computeFeasibility, ge_iff_le, decide_eq_true_eq]
  all_goals (simp [computeFeasibility]; norm_num)

/-- Witness for the universally quantified part of the C1 theorem,
instantiated at the 3000/5/2/40000/8000 reference point. -/
theorem feasibility_formula_witness :
    (computeFeasibility 3000 5 2 40000 8000).required_total
      = (3000 : ℚ) * (5 : ℚ) * (2 : ℚ) * (6/5) + 8000 :=
  (feasibility_formula_and_monotone_instances.1 3000 5 2 40000 8000
    (by decide) (by decide) (by norm_num)).1

/-- C2: for all positive inputs the tier assigned at server.py:2474-2482
is determined by the ratio `r = (budget / num_people / num_days) /
daily_minimum`: the budget tier when `r < 1.3`, moderate when
`1.3 ≤ r < 2.5`, luxury when `r ≥ 2.5`, lower boundaries inclusive
(at `r = 1.3` exactly the tier is moderate, at `r = 2.5` exactly it is
luxury), and a tier is computed even when the verdict is insufficient
(the `r = 1.3` instance below is insufficient yet carries a tier). -/
theorem tier_ratio_classification :
    (∀ (dailyMin : ℕ) (numDays numPeople : ℤ) (budget transport : ℚ),
      0 < dailyMin → 0 < numDays → 0 < numPeople → 0 < budget →
      (computeFeasibility dailyMin numDays numPeople budget transport).tier =
        (if (budget / (numPeople : ℚ) / (numDays : ℚ)) / (dailyMin : ℚ) < 13/10
         then Tier.budgetFriendly
         else if (budget / (numPeople : ℚ) / (numDays : ℚ)) / (dailyMin : ℚ) < 5/2
         then Tier.moderate
         else Tier.luxury))
    ∧ (computeFeasibility 3000 1 1 3900 8000).tier = Tier.moderate
    ∧ (computeFeasibility 3000 1 1 7500 0).tier = Tier.luxury
    ∧ (computeFeasibility 3000 1 1 3900 8000).is_sufficient = false := by
  refine ⟨?_, ?_, ?_, ?_⟩
  · intro dailyMin numDays numPeople budget transport hd _ _ _
    have hdq : (0 : ℚ) < (dailyMin : ℚ) := by exact_mod_cast hd
    have h1 : budget / (numPeople : ℚ) / (numDays : ℚ) < (dailyMin : ℚ) * (13/10)
        ↔ (budget / (numPeople : ℚ) / (numDays : ℚ)) / (dailyMin : ℚ) < 13/10 := by
      rw [div_lt_iff₀ hdq, mul_comm]
    have h2 : budget / (numPeople : ℚ) / (numDays : ℚ) < (dailyMin : ℚ) * (5/2)
        ↔ (budget / (numPeople : ℚ) / (numDays : ℚ)) / (dailyMin : ℚ) < 5/2 := by
      rw [div_lt_iff₀ hdq, mul_comm]
    simp only [computeFeasibility, h1, h2]
  all_goals (simp [computeFeasibility]; norm_num)

/-- Witness for the universally quantified part of the C2 theorem: at
daily minimum 3000, one person, one day, budget 6000 the ratio is 2 and
the tier is moderate. -/
theorem tier_ratio_classification_witness :
    (computeFeasibility 3000 1 1 6000 0).tier = Tier.moderate := by
  have h := tier_ratio_classification.1 3000 1 1 6000 0
    (by decide) (by decide) (by decide) (by norm_num)
  rw [h]; norm_num

/-- C3 fails on the code: the merge steps (server.py:2195, 2201) test the
fresh value against `["not specified", "unknown", "n/a", ""]` only — the
sentinel `"anywhere"` is missing from that list, although the claim's
sentinel set (and the completeness check at server.py:2270) includes it.
Concretely: the previous origin "Delhi" is known, the fresh extraction
says "Anywhere" (unknown per the claimed sentinel set), and the merge
adopts "Anywhere", downgrading a known field to unknown. -/
theorem merge_sentinel_counterexample :
    isUnknownStr5 "Delhi" = false
      ∧ prevKnownOrigin.origin_city = some "Delhi"
      ∧ freshAnywhereOrigin.origin_city = "Anywhere"
      ∧ isUnknownStr5 "Anywhere" = true
      ∧ (mergeSlots prevKnownOrigin freshAnywhereOrigin).origin_city = "Anywhere"
      ∧ isUnknownStr5 (mergeSlots prevKnownOrigin freshAnywhereOrigin).origin_city = true := by
  decide

/-- C3 amended: the merge never downgrades a known field to unknown with
respect to the merge's own unknown-markers — for `origin_city` and
`destination` the sentinel set `{"not specified", "unknown", "n/a", ""}`
(case-insensitive, without `"anywhere"`), for the numeric fields `≤ 0`,
and for `interests` / `start_date` emptiness — provided any stored
`original_destination` that can overwrite the destination on a
budget-increase event is itself a known string. -/
theorem merge_preserves_known_fields
    (prev : PrevExtraction) (fresh : TripSlots)
    (hod : ∀ od, prev.original_destination = some od → od ≠ "" →
      isUnknownStr4 od = false) :
    (∀ s, prev.origin_city = some s → isUnknownStr4 s = false →
      isUnknownStr4 (mergeSlots prev fresh).origin_city = false)
    ∧ (∀ s, prev.destination = some s → isUnknownStr4 s = false →
      isUnknownStr4 (mergeSlots prev fresh).destination = false)
    ∧ (∀ n, prev.num_days = some n → 0 < n →
      0 < (mergeSlots prev fresh).num_days)
    ∧ (∀ n, prev.num_people = some n → 0 < n →
      0 < (mergeSlots prev fresh).num_people)
    ∧ (∀ q, prev.budget = some q → 0 < q →
      0 < (mergeSlots prev fresh).budget)
    ∧ (∀ s, prev.interests = some s → s ≠ "" →
      (mergeSlots prev fresh).interests ≠ "")
    ∧ (∀ s, prev.start_date = some s → s ≠ "" →
      (mergeSlots prev fresh).start_date ≠ "") := by
  refine ⟨?_, ?_, ?_, ?_, ?_, ?_, ?_⟩
  · intro s hs hknown
    have hsne : s ≠ "" := by
      intro he; rw [he] at hknown; exact absurd hknown (by decide)
    simp only [mergeSlots, mergedOrigin, hs, strTruthy, Option.getD_some]
    split
    · exact hknown
    · rename_i h
      rw [decide_eq_true hsne, Bool.and_true] at h
      simpa using h
  · intro s hs hknown
    have hsne : s ≠ "" := by
      intro he; rw [he] at hknown; exact absurd hknown (by decide)
    simp only [mergeSlots, mergedDestination, hs, strTruthy, Option.getD_some]
    split
    · rename_i h
      rcases Bool.and_eq_true_iff.mp h with ⟨_, h2⟩
      cases hodval : prev.original_destination with
      | none => rw [hodval] at h2; simp [strTruthy] at h2
      | some od =>
        have hodne : od ≠ "" := by
          rw [hodval] at h2; simpa [strTruthy] using h2
        simp only [hodval, Option.getD_some]
        exact hod od hodval hodne
    · split
      · exact hknown
      · rename_i h
        rw [decide_eq_true hsne, Bool.and_true] at h
        simpa using h
  · intro n hn hpos
    simp only [mergeSlots, mergedNumDays, hn, intTruthy, Option.getD_some]
    split
    · exact hpos
    · rename_i h
      by_cases hle : fresh.num_days ≤ 0
      · simp [hle] at h; omega
      · omega
  · intro n hn hpos
    simp only [mergeSlots, mergedNumPeople, hn, intTruthy, Option.getD_some]
    split
    · exact hpos
    · rename_i h
      by_cases hle : fresh.num_people ≤ 0
      · simp [hle] at h; omega
      · omega
  · intro q hq hpos
    simp only [mergeSlots, mergedBudget, hq, ratTruthy, Option.getD_some]
    split
    · exact hpos
    · rename_i h
      by_cases hle : fresh.budget ≤ 0
      · simp [hle] at h; exact absurd h hpos.ne'
      · linarith [not_le.mp hle]
  · intro s hs hne
    simp only [mergeSlots, mergedInterests, hs, strTruthy, Option.getD_some]
    split
    · exact hne
    · rename_i h
      intro hfresh
      simp [hfresh, hne] at h
  · intro s hs hne
    simp only [mergeSlots, mergedStartDate, hs, strTruthy, Option.getD_some]
    split
    · exact hne
    · rename_i h
      intro hfresh
      simp [hfresh, hne] at h

/-- Witness for the C3 amended theorem: merging the known-destination
prior slots with the "Anywhere"-origin turn keeps the destination known
with respect to the merge's own sentinel set. -/
theorem merge_preserves_known_fields_witness :
    isUnknownStr4 (mergeSlots prevKnownOrigin freshAnywhereOrigin).destination = false :=
  (merge_preserves_known_fields prevKnownOrigin freshAnywhereOrigin
    (fun od h => by simp [prevKnownOrigin] at h)).2.1 "Goa" rfl (by decide)

/-- C4: whenever the freshly extracted budget is known and strictly
greater than the previous known budget, the merge (server.py:2219-2241)
adopts the new budget; if the previous slot set carries a non-empty
`original_destination`, the merged destination is overwritten with it; and
the merged slot record carries no `original_destination` (the
`TripDetails` model has no such attribute, so the key is absent from the
persisted dump).  In particular prior slots
{budget 40000, destination "Ladakh", original_destination "Goa"} merged
with a turn stating only budget 60000 give destination "Goa",
budget 60000, original_destination cleared. -/
theorem budget_increase_restores_destination :
    (∀ (prev : PrevExtraction) (fresh : TripSlots) (b : ℚ),
      prev.budget = some b → 0 < b → b < fresh.budget →
      (mergeSlots prev fresh).budget = fresh.budget
        ∧ (∀ od, prev.original_destination = some od → od ≠ "" →
            (mergeSlots prev fresh).destination = od)
        ∧ (slotsToPrevExtraction (mergeSlots prev fresh)).original_destination = none)
    ∧ (mergeSlots prevBudgetIncrease freshOnlyBudget).destination = "Goa"
    ∧ (mergeSlots prevBudgetIncrease freshOnlyBudget).budget = 60000
    ∧ (slotsToPrevExtraction
        (mergeSlots prevBudgetIncrease freshOnlyBudget)).original_destination = none := by
  refine ⟨?_, by decide, by decide, rfl⟩
  intro prev fresh b hb hbpos hlt
  have hfpos : 0 < fresh.budget := lt_trans hbpos hlt
  have hc : decide (fresh.budget ≤ 0) = false := decide_eq_false (not_le.mpr hfpos)
  have hevent : budgetIncreaseEvent prev fresh = true := by
    simp [budgetIncreaseEvent, hb, ratTruthy, hbpos.ne', hlt, hfpos]
  refine ⟨?_, ?_, rfl⟩
  · simp [mergeSlots, mergedBudget, hc]
  · intro od hod hodne
    simp [mergeSlots, mergedDestination, hevent, hod, strTruthy, hodne]

/-- Witness for the universally quantified part of the C4 theorem,
instantiated at the reference scenario. -/
theorem budget_increase_restores_destination_witness :
    (mergeSlots prevBudgetIncrease freshOnlyBudget).destination = "Goa" :=
  (budget_increase_restores_destination.1 prevBudgetIncrease freshOnlyBudget
    40000 rfl (by norm_num) (by norm_num [freshOnlyBudget])).2.1 "Goa" rfl (by decide)

/-- C5 fails on the code: the dollar branch at server.py:2410 is an
`elif rupee_matches`, so it runs only when the rupee scan found no amount
at all — a text whose rupee amounts all fall outside the plausible range
(here 500 and 20000) but which mentions a plausible dollar amount ($50)
yields the hardcoded default 2500, not the converted dollar figure
50 × 83 = 4150 that the spec's chain (step 3) produces. -/
theorem parser_dollar_fallback_counterexample :
    parseMinDailyBudget infoRupeeImplausible = defaultMinDaily
      ∧ specCostSignalParse infoRupeeImplausible = 50 * 83
      ∧ defaultMinDaily ≠ 50 * 83 := by
  decide

/-- C5 amended: the fallback chain of server.py:2388-2417, first success
winning: (1) a labeled extracted-minimum marker is used directly;
(2) else, when the rupee scan found any amount, the minimum of the
plausible (1000–15000) rupee amounts is used if one exists, and the
default 2500 stands if none is plausible — the dollar branch is NOT
reached in that case; (3) the dollar branch runs only when the rupee scan
found nothing at all: dollar amounts are filtered to 10–200 and converted
at 83 ₹/$, taking the minimum; (4) otherwise the default 2500. -/
theorem parser_chain_characterization (b : BudgetInfo)
    (hne : b.nonempty = true) :
    (∀ n, b.extractedMin = some n → parseMinDailyBudget b = n)
    ∧ (b.extractedMin = none →
        b.rupeeAmounts.filter (fun m => 1000 ≤ m && m ≤ 15000) ≠ [] →
        parseMinDailyBudget b
          = listMin (b.rupeeAmounts.filter (fun m => 1000 ≤ m && m ≤ 15000)))
    ∧ (b.extractedMin = none → b.rupeeAmounts ≠ [] →
        b.rupeeAmounts.filter (fun m => 1000 ≤ m && m ≤ 15000) = [] →
        parseMinDailyBudget b = defaultMinDaily)
    ∧ (b.extractedMin = none → b.rupeeAmounts = [] →
        b.dollarAmounts.filter (fun m => 10 ≤ m && m ≤ 200) ≠ [] →
        parseMinDailyBudget b
          = listMin ((b.dollarAmounts.filter (fun m => 10 ≤ m && m ≤ 200)).map (· * 83)))
    ∧ (b.extractedMin = none → b.rupeeAmounts = [] →
        b.dollarAmounts.filter (fun m => 10 ≤ m && m ≤ 200) = [] →
        parseMinDailyBudget b = defaultMinDaily) := by
  refine ⟨?_, ?_, ?_, ?_, ?_⟩
  · intro n h
    simp [parseMinDailyBudget, hne, h]
  · intro h hfilt
    have hr : b.rupeeAmounts ≠ [] := by
      intro he; rw [he] at hfilt; simp at hfilt
    simp [parseMinDailyBudget, hne, h, hr, hfilt]
  · intro h hr hfilt
    simp [parseMinDailyBudget, hne, h, hr, hfilt]
  · intro h hr hfilt
    have hd : b.dollarAmounts ≠ [] := by
      intro he; rw [he] at hfilt; simp at hfilt
    simp [parseMinDailyBudget, hne, h, hr, hd, hfilt]
  · intro h hr hfilt
    by_cases hd : b.dollarAmounts = [] <;>
      simp [parseMinDailyBudget, hne, h, hr, hd, hfilt]

/-- Witness for the C5 amended theorem: a text with no rupee amounts and
one plausible dollar amount reaches the dollar branch and yields 4150. -/
theorem parser_chain_characterization_witness :
    parseMinDailyBudget infoDollarOnly = 4150 := by
  have h := (parser_chain_characterization infoDollarOnly rfl).2.2.2.1
    rfl rfl (by decide)
  rw [h]; decide

/-- C6 fails on the code: when both transport estimators raise, the
fallback call at server.py:2433 has no handler of its own, so the
exception escapes to the outer handler at server.py:2490 which defaults
the whole verdict to sufficient — the transport cost is NOT treated as
zero with the feasibility verdict still computed.  Concretely, with
budget 10000 for 2 people and 5 days at the default daily minimum 2500,
a zero-transport feasibility computation is insufficient
(required 30000 > 10000), yet the code reports sufficient. -/
theorem transport_double_failure_counterexample :
    (step3Verdict sampleResearch.minimum_budget (Except.error ())
        (Except.error ()) slotsCompleteSmallBudget).1 = defaultVerdict
      ∧ defaultVerdict.is_sufficient = true
      ∧ parseMinDailyBudget sampleResearch.minimum_budget = 2500
      ∧ (computeFeasibility 2500 slotsCompleteSmallBudget.num_days
          slotsCompleteSmallBudget.num_people slotsCompleteSmallBudget.budget
          0).is_sufficient = false := by
  refine ⟨rfl, rfl, rfl, ?_⟩
  simp [computeFeasibility, slotsCompleteSmallBudget]
  norm_num

/-- C6 amended: the transport step (server.py:2422-2438) uses the primary
estimate when the primary call succeeds and calls the category fallback on
any primary failure, adopting whatever the fallback returns (no sign
check); when the fallback fails as well, the failure propagates to the
enclosing feasibility handler, which abandons the computation and
defaults the verdict to sufficient (shortfall 0, moderate tier) — the
request proceeds rather than aborting, but no zero-transport feasibility
verdict is computed.  The call count 2 records that the fallback ran. -/
theorem transport_adapter_fallback_chain :
    (∀ (v : ℚ) (fallback : Except Unit ℚ),
      estimateTransportAdapter (Except.ok v) fallback = Except.ok v)
    ∧ (∀ fallback : Except Unit ℚ,
      estimateTransportAdapter (Except.error ()) fallback = fallback)
    ∧ (∀ (b : BudgetInfo) (t : TripSlots),
      (step3Verdict b (Except.error ()) (Except.error ()) t).1 = defaultVerdict
        ∧ (step3Verdict b (Except.error ()) (Except.error ()) t).2 = 2) :=
  ⟨fun _ _ => rfl, fun _ => rfl, fun _ _ => ⟨rfl, rfl⟩⟩

/-- Membership in a conditional singleton block of the missing-fields
list. -/
theorem mem_ite_singleton (c : Prop) [Decidable c] (lbl s : String) :
    s ∈ (if c then [lbl] else ([] : List String)) ↔ (s = lbl ∧ c) := by
  split <;> simp_all

/-- C7: when at least one required field is unknown, the orchestrator
returns the "Need more information" response at server.py:2327 before the
research phase, so zero external cost lookups happen, and the missing
list enumerates exactly the unknown required fields among origin,
destination, duration, budget and start date; a slot set missing only
`start_date` reports exactly `["start date"]`. -/
theorem collecting_response_exact_missing_fields :
    (∀ (t : TripSlots) (cache : ResearchCache) (now : ℚ)
        (freshResearch : ResearchData) (primary fallback : Except Unit ℚ),
      missingFields t ≠ [] →
      pipelineAfterMerge t cache now freshResearch primary fallback
        = (OrchestratorResponse.collecting (missingFields t), 0))
    ∧ (∀ (t : TripSlots) (s : String), s ∈ missingFields t ↔
        ((s = "origin city" ∧ isUnknownStr5 t.origin_city = true)
          ∨ (s = "destination" ∧ isUnknownStr5 t.destination = true)
          ∨ (s = "duration" ∧ t.num_days ≤ 0)
          ∨ (s = "budget" ∧ t.budget ≤ 0)
          ∨ (s = "start date" ∧ t.start_date = "")))
    ∧ missingFields slotsMissingOnlyStart = ["start date"] := by
  refine ⟨?_, ?_, by decide⟩
  · intro t cache now freshResearch primary fallback hne
    simp [pipelineAfterMerge, hne]
  · intro t s
    simp only [missingFields, List.mem_append, mem_ite_singleton]
    tauto

/-- Witness for the C7 theorem at the concrete slot set missing only
`start_date`: the COLLECTING response carries exactly `["start date"]`
and zero external calls. -/
theorem collecting_response_witness :
    pipelineAfterMerge slotsMissingOnlyStart emptyCache 0 sampleResearch
        (Except.error ()) (Except.error ())
      = (OrchestratorResponse.collecting ["start date"], 0) := by
  have h := collecting_response_exact_missing_fields
  have h1 := h.1 slotsMissingOnlyStart emptyCache 0 sampleResearch
    (Except.error ()) (Except.error ()) (by decide)
  rw [h1, h.2.2]

/-- C8 fails on the code: `research_cache` is keyed by the destination
string exactly as given — `cache_research` (server.py:393) and
`get_cached_research` (server.py:382) perform no case folding — so a
fresh entry stored under "Goa" is NOT returned for a read of "GOA"
(age 10 s, well inside the validity window), while the same-case read
does return it. -/
theorem cache_case_sensitivity_counterexample :
    get_cached_research (cache_research emptyCache "Goa" sampleResearch 0)
        "GOA" 10 = none
      ∧ get_cached_research (cache_research emptyCache "Goa" sampleResearch 0)
        "Goa" 10 = some sampleResearch := by
  constructor
  · simp [get_cached_research, cache_research, emptyCache,
      show ("GOA" : String) ≠ "Goa" from by decide]
  · norm_num [get_cached_research, cache_research, cacheDurationSeconds]

/-- C8 amended: the research cache is keyed by the exact destination
string (case-sensitively): a put under `d` followed within the validity
window by a get of the identical string returns the data, and a get of
any different string — including a case variant — is unaffected by the
put. -/
theorem cache_exact_key (c : ResearchCache) (d D : String)
    (data : ResearchData) (t now : ℚ) :
    (D = d → now - t < cacheDurationSeconds →
      get_cached_research (cache_research c d data t) D now = some data)
    ∧ (D ≠ d → get_cached_research (cache_research c d data t) D now
        = get_cached_research c D now) := by
  constructor
  · intro hE hage
    simp [get_cached_research, cache_research, hE, hage]
  · intro hne
    simp [get_cached_research, cache_research, hne]

/-- Witness for the C8 amended theorem: the same-case read hits. -/
theorem cache_exact_key_witness :
    get_cached_research (cache_research emptyCache "Goa" sampleResearch 0)
        "Goa" 10 = some sampleResearch :=
  (cache_exact_key emptyCache "Goa" "Goa" sampleResearch 0 10).1 rfl
    (by norm_num [cacheDurationSeconds])

/-- C9: a cached entry read at age strictly below 3600 seconds from
insertion is returned; a read at age 3600 or more is a miss; and on a
miss the research step re-fetches (the four research calls run) and
re-populates the cache with the fresh bundle. -/
theorem cache_ttl_expiry (c : ResearchCache) (d : String)
    (data freshR : ResearchData) (t now : ℚ) :
    (now - t < 3600 →
      get_cached_research (cache_research c d data t) d now = some data)
    ∧ (3600 ≤ now - t →
      get_cached_research (cache_research c d data t) d now = none)
    ∧ (get_cached_research c d now = none →
      step2Research c now d freshR = (freshR, cache_research c d freshR now, 4)) := by
  refine ⟨?_, ?_, ?_⟩
  · intro hage
    simp [get_cached_research, cache_research, cacheDurationSeconds, hage]
  · intro hage
    have hnot : ¬ (now - t < cacheDurationSeconds) := by
      rw [cacheDurationSeconds]; exact not_lt.mpr hage
    simp [get_cached_research, cache_research, hnot]
  · intro hmiss
    simp [step2Research, hmiss]

/-- Witness for the C9 theorem: at age exactly 3600 the read misses, and
a miss on the empty cache triggers the 4-call re-fetch and repopulation. -/
theorem cache_ttl_expiry_witness :
    get_cached_research (cache_research emptyCache "Goa" sampleResearch 0)
        "Goa" 3600 = none
      ∧ step2Research emptyCache 0 "Goa" sampleResearch
        = (sampleResearch, cache_research emptyCache "Goa" sampleResearch 0, 4) :=
  ⟨(cache_ttl_expiry emptyCache "Goa" sampleResearch sampleResearch 0 3600).2.1
      (by norm_num),
   (cache_ttl_expiry emptyCache "Goa" sampleResearch sampleResearch 0 0).2.2 rfl⟩

/-- C10: if any exception is raised inside the feasibility block of
server.py:2388-2489 — the transport step with both estimators failing, or
the `ZeroDivisionError` from `budget / num_people / num_days` — the
handler at server.py:2490-2495 swallows it and defaults the verdict to
sufficient (shortfall 0, moderate tier), so the standard planning prompt
is used and no insufficiency warning is shown for that turn. -/
theorem exception_defaults_to_sufficient
    (b : BudgetInfo) (primary fallback : Except Unit ℚ) (t : TripSlots)
    (h : estimateTransportAdapter primary fallback = Except.error ()
      ∨ t.num_people = 0 ∨ t.num_days = 0) :
    (step3Verdict b primary fallback t).1 = defaultVerdict
      ∧ (step3Verdict b primary fallback t).1.is_sufficient = true
      ∧ (step3Verdict b primary fallback t).1.shortfall = 0
      ∧ (step3Verdict b primary fallback t).1.tier = Tier.moderate
      ∧ choosePrompt (step3Verdict b primary fallback t).1 = PromptKind.standard := by
  have hmain : (step3Verdict b primary fallback t).1 = defaultVerdict := by
    rcases h with h | h | h
    · simp [step3Verdict, h, Bind.bind, Except.bind]
    · cases hA : estimateTransportAdapter primary fallback with
      | error e => simp [step3Verdict, hA, Bind.bind, Except.bind]
      | ok tr => simp [step3Verdict, hA, computeFeasibilityE, h, Bind.bind, Except.bind]
    · cases hA : estimateTransportAdapter primary fallback with
      | error e => simp [step3Verdict, hA, Bind.bind, Except.bind]
      | ok tr => simp [step3Verdict, hA, computeFeasibilityE, h, Bind.bind, Except.bind]
  rw [hmain]
  exact ⟨rfl, rfl, rfl, rfl, rfl⟩

/-- Witness for the C10 theorem: both estimators failing on a complete
slot set yields the sufficient default. -/
theorem exception_defaults_witness :
    (step3Verdict sampleResearch.minimum_budget (Except.error ())
        (Except.error ()) slotsMissingOnlyStart).1 = defaultVerdict :=
  (exception_defaults_to_sufficient sampleResearch.minimum_budget
    (Except.error ()) (Except.error ()) slotsMissingOnlyStart (Or.inl rfl)).1

end Voyage
